import Mathlib

/-!
# Verification of the rate-controlled HTTP load generator (`src/main.go`)

Shallow embedding of the dispatch-and-aggregation engine: the per-attempt
worker `doRequest`, the burst dispatcher `executeRequestWithTimer`, the run
controller `executeRequests`, and the entry point `main`.

The HTTP call `http.DefaultClient.Do` is external; its result is modelled as
a pair of an optional response and an optional error handed to the worker.
Channel sends are modelled as lists of published messages (in send order);
the shared `Report` is threaded through explicitly, which corresponds to
taking each worker's counter increments as atomic.
-/

/-- Captured HTTP response metadata, as used by the program
(`http.Response`: only `StatusCode` and `Body` are read). -/
structure HttpResponse where
  StatusCode : Nat
  Body : String
  deriving DecidableEq, Repr

/-- `type Request struct` from `src/main.go` (the outcome of one attempt):
index, optional response pointer, optional error. -/
structure Request where
  Index : Int
  Response : Option HttpResponse
  Err : Option String
  deriving DecidableEq, Repr

/-- `type Report struct` from `src/main.go`: the run-wide counters. -/
structure Report where
  TotalRequests : Int
  TotalSuccess : Int
  TotalFail : Int
  deriving DecidableEq, Repr

/-- The fail test of `doRequest` lines 66-67: the status code differs from
`http.StatusOK` (200), `http.StatusAccepted` (202), `http.StatusCreated`
(201) and `http.StatusNoContent` (204). -/
def failStatus (r : HttpResponse) : Bool :=
  r.StatusCode != 200 && r.StatusCode != 202 && r.StatusCode != 201 && r.StatusCode != 204

/-- The request body built by `doRequest` lines 44-48: a JSON object with
fields `name`, `date` and `requests_sent`. -/
structure RequestBody where
  name : String
  date : String
  requests_sent : Int
  deriving DecidableEq, Repr

/-- The outgoing HTTP request built by `doRequest` lines 49-59: method,
URL, headers (as key/value pairs) and JSON body. -/
structure HttpRequestModel where
  Method : String
  URL : String
  Header : List (String × String)
  Body : RequestBody
  deriving DecidableEq, Repr

/-- `doRequest` lines 43-59: construction of the outgoing POST request.
`now` stands for `time.Now().String()`, an implementation-defined
timestamp string. -/
def buildRequest (count : Int) (reqUrl key now : String) : HttpRequestModel :=
  { Method := "POST"
    URL := reqUrl
    Header := [("Content-Type", "application/json; charset=UTF-8"), ("X-Api-Key", key)]
    Body := { name := "request #" ++ toString count
              date := now
              requests_sent := count } }

/-- What one worker observes from `http.DefaultClient.Do`: an optional
response and an optional error (line 60). -/
structure Observation where
  resp : Option HttpResponse
  err : Option String
  deriving DecidableEq, Repr

/-- Result of running one worker: the updated report and the messages sent
on the result channel and on the error channel, in send order. -/
structure WorkerEffect where
  report : Report
  resultMsgs : List Request
  errorMsgs : List Request
  deriving DecidableEq, Repr

/-- `doRequest` lines 60-89: after the HTTP call returns `(resp, err)`,
increment `TotalRequests`; if a response is present, classify it by status
code, incrementing `TotalSuccess` or `TotalFail` and publishing on the
corresponding channel (the error-channel message carries both `Err: err`
and `Response: resp`, exactly as the source does); then, independently, if
an error is present, increment `TotalFail` again and publish the error on
the error channel. -/
def doRequest (count : Int) (resp : Option HttpResponse) (err : Option String)
    (report : Report) : WorkerEffect :=
  let report := { report with TotalRequests := report.TotalRequests + 1 }
  let afterResp : WorkerEffect :=
    match resp with
    | some r =>
      if failStatus r then
        { report := { report with TotalFail := report.TotalFail + 1 }
          resultMsgs := []
          errorMsgs := [{ Index := count, Response := some r, Err := err }] }
      else
        { report := { report with TotalSuccess := report.TotalSuccess + 1 }
          resultMsgs := [{ Index := count, Response := some r, Err := none }]
          errorMsgs := [] }
    | none => { report := report, resultMsgs := [], errorMsgs := [] }
  match err with
  | some e =>
    { afterResp with
      report := { afterResp.report with TotalFail := afterResp.report.TotalFail + 1 }
      errorMsgs := afterResp.errorMsgs ++ [{ Index := count, Response := none, Err := some e }] }
  | none => afterResp

/-- One burst of `executeRequestWithTimer` lines 149-156: workers with
indices 1..N run `doRequest`, all mutating the shared report; worker `i`
observes `obs[i]`. Channel messages are concatenated in index order. -/
def runBurst (obs : List Observation) (idx : Int) (report : Report) : WorkerEffect :=
  match obs with
  | [] => { report := report, resultMsgs := [], errorMsgs := [] }
  | o :: rest =>
    let eff := doRequest idx o.resp o.err report
    let effRest := runBurst rest (idx + 1) eff.report
    { report := effRest.report
      resultMsgs := eff.resultMsgs ++ effRest.resultMsgs
      errorMsgs := eff.errorMsgs ++ effRest.errorMsgs }

/-- Go `json.Marshal` applied to `Report` (line 167): field names are the
exported struct field names, in declaration order. -/
def marshalReport (r : Report) : String :=
  "\x7b\"TotalRequests\":" ++ toString r.TotalRequests ++
  ",\"TotalSuccess\":" ++ toString r.TotalSuccess ++
  ",\"TotalFail\":" ++ toString r.TotalFail ++ "\x7d"

/-- `prettyPrint` (lines 174-178, Go `json.Indent` with indent `"  "`)
applied to the marshalled report: the indented JSON rendering. -/
def prettyReport (r : Report) : String :=
  "\x7b\n  \"TotalRequests\": " ++ toString r.TotalRequests ++
  ",\n  \"TotalSuccess\": " ++ toString r.TotalSuccess ++
  ",\n  \"TotalFail\": " ++ toString r.TotalFail ++ "\n\x7d"

/-- Observable actions of the run controller `executeRequests`. -/
inductive RunAction where
  | logLine (s : String)
  | startDispatcher (url key : String) (rqs : Int) (verbose : Bool)
  | sleepSeconds (n : Int)
  | printLine (s : String)
  deriving DecidableEq, Repr

/-- `executeRequests` lines 160-172: log, start the dispatcher as a
goroutine, sleep `duration + 1` seconds, log, then print the indented JSON
report. `finalReport` is the value of the shared report read after the
sleep. -/
def executeRequests (url key : String) (rqs duration : Int) (verbose : Bool)
    (finalReport : Report) : List RunAction :=
  [ RunAction.logLine "Waiting for all requests to be executed...",
    RunAction.startDispatcher url key rqs verbose,
    RunAction.sleepSeconds (duration + 1),
    RunAction.logLine "Requests executed successfully.",
    RunAction.logLine "--------------------REPORT--------------------",
    RunAction.printLine (prettyReport finalReport) ]

/-- What `main` decides to do with a parsed configuration. -/
inductive MainAction where
  | startRun (url key : String) (rqs duration : Int) (verbose : Bool)
  | exitNonZero (msg : String)
  deriving DecidableEq, Repr

/-- `main` lines 195-204: after `getFlags` resolves the configuration it
calls `executeRequests` unconditionally — no validation of `rqs` or
`duration` occurs anywhere before the run starts. -/
def mainFlow (url key : String) (rqs duration : Int) (verbose : Bool) : MainAction :=
  MainAction.startRun url key rqs duration verbose

/-- Exactly one of response/error was observed: the normal contract of the
HTTP client (a response with no error, or an error with no response). -/
def exclusiveObservation (resp : Option HttpResponse) (err : Option String) : Prop :=
  (resp.isSome ∧ err = none) ∨ (resp = none ∧ err.isSome)

theorem failStatus_false_iff (r : HttpResponse) :
    failStatus r = false ↔
      (r.StatusCode = 200 ∨ r.StatusCode = 201 ∨ r.StatusCode = 202 ∨ r.StatusCode = 204) := by
  simp [failStatus]
  tauto

theorem doRequest_totalRequests_succ (count : Int) (resp : Option HttpResponse)
    (err : Option String) (report : Report) :
    (doRequest count resp err report).report.TotalRequests = report.TotalRequests + 1 := by
  cases resp <;> cases err <;> simp [doRequest] <;> split <;> rfl

theorem runBurst_totalRequests (obs : List Observation) (idx : Int) (report : Report) :
    (runBurst obs idx report).report.TotalRequests =
      report.TotalRequests + (obs.length : Int) := by
  induction obs generalizing idx report with
  | nil => simp [runBurst]
  | cons o rest ih =>
      simp only [runBurst, ih, doRequest_totalRequests_succ, List.length_cons]
      push_cast
      ring

/-- C1: for a worker attempt that receives an HTTP response (with no
transport error), the response is classified success exactly when its
status code is in the set (200, 201, 202, 204): in that case
`TotalSuccess` is incremented and the outcome is published on the success
channel; for any other status code `TotalFail` is incremented and the
outcome is published on the error channel with the response attached. -/
theorem doRequest_classifies_by_status_code (count : Int) (r : HttpResponse)
    (report : Report) :
    ((r.StatusCode = 200 ∨ r.StatusCode = 201 ∨ r.StatusCode = 202 ∨ r.StatusCode = 204) →
      (doRequest count (some r) none report).report.TotalSuccess = report.TotalSuccess + 1 ∧
      (doRequest count (some r) none report).report.TotalFail = report.TotalFail ∧
      (doRequest count (some r) none report).resultMsgs =
        [{ Index := count, Response := some r, Err := none }] ∧
      (doRequest count (some r) none report).errorMsgs = []) ∧
    (¬ (r.StatusCode = 200 ∨ r.StatusCode = 201 ∨ r.StatusCode = 202 ∨ r.StatusCode = 204) →
      (doRequest count (some r) none report).report.TotalFail = report.TotalFail + 1 ∧
      (doRequest count (some r) none report).report.TotalSuccess = report.TotalSuccess ∧
      (doRequest count (some r) none report).errorMsgs =
        [{ Index := count, Response := some r, Err := none }] ∧
      (doRequest count (some r) none report).resultMsgs = []) := by
  constructor
  · intro h
    have hf : failStatus r = false := (failStatus_false_iff r).mpr h
    simp [doRequest, hf]
  · intro h
    have hf : failStatus r = true := by
      rcases Bool.eq_false_or_eq_true (failStatus r) with hh | hh
      · exact hh
      · exact absurd ((failStatus_false_iff r).mp hh) h
    simp [doRequest, hf]

theorem doRequest_classifies_by_status_code_witness :
    (doRequest 7 (some { StatusCode := 404, Body := "" }) none
        { TotalRequests := 0, TotalSuccess := 0, TotalFail := 0 }).report.TotalFail = 0 + 1 :=
  ((doRequest_classifies_by_status_code 7 { StatusCode := 404, Body := "" }
      { TotalRequests := 0, TotalSuccess := 0, TotalFail := 0 }).2 (by decide)).1

/-- C4: a worker attempt whose HTTP call fails at the transport level
(no response) is counted as a failure, and the outcome published on the
error channel carries the error and no response. -/
theorem doRequest_transport_failure (count : Int) (e : String) (report : Report) :
    (doRequest count none (some e) report).report.TotalFail = report.TotalFail + 1 ∧
    (doRequest count none (some e) report).report.TotalSuccess = report.TotalSuccess ∧
    (doRequest count none (some e) report).resultMsgs = [] ∧
    (doRequest count none (some e) report).errorMsgs =
      [{ Index := count, Response := none, Err := some e }] :=
  ⟨rfl, rfl, rfl, rfl⟩

/-- C6: every worker increments `TotalRequests` exactly once regardless of
its outcome, so a burst of N ≥ 1 workers increases `TotalRequests` by
exactly N (worker increments taken as atomic). -/
theorem burst_increments_totalRequests_by_N (obs : List Observation) (idx : Int)
    (report : Report) (N : Nat) (hN : 1 ≤ N) (hlen : obs.length = N) :
    (runBurst obs idx report).report.TotalRequests = report.TotalRequests + (N : Int) ∧
    (∀ count : Int, ∀ resp : Option HttpResponse, ∀ err : Option String, ∀ rep : Report,
      (doRequest count resp err rep).report.TotalRequests = rep.TotalRequests + 1) := by
  subst hlen
  exact ⟨runBurst_totalRequests obs idx report,
    fun count resp err rep => doRequest_totalRequests_succ count resp err rep⟩

theorem burst_increments_totalRequests_by_N_witness :
    (runBurst [{ resp := some { StatusCode := 200, Body := "" }, err := none },
               { resp := none, err := some "connection refused" }] 1
        { TotalRequests := 0, TotalSuccess := 0, TotalFail := 0 }).report.TotalRequests =
      0 + (2 : Int) :=
  (burst_increments_totalRequests_by_N
    [{ resp := some { StatusCode := 200, Body := "" }, err := none },
     { resp := none, err := some "connection refused" }] 1
    { TotalRequests := 0, TotalSuccess := 0, TotalFail := 0 } 2 (by decide) rfl).1

/-- C8: the worker issues a POST whose headers include
Content-Type: application/json; charset=UTF-8 and X-Api-Key set to the
configured key, and whose JSON body has fields name = "request #i",
date = the current-timestamp string, and requests_sent = i. -/
theorem buildRequest_headers_and_body (count : Int) (reqUrl key now : String) :
    (buildRequest count reqUrl key now).Method = "POST" ∧
    ("Content-Type", "application/json; charset=UTF-8") ∈
      (buildRequest count reqUrl key now).Header ∧
    ("X-Api-Key", key) ∈ (buildRequest count reqUrl key now).Header ∧
    (buildRequest count reqUrl key now).Body.name = "request #" ++ toString count ∧
    (buildRequest count reqUrl key now).Body.date = now ∧
    (buildRequest count reqUrl key now).Body.requests_sent = count := by
  refine ⟨rfl, ?_, ?_, rfl, rfl, rfl⟩ <;> simp [buildRequest]

/-- C9: the run controller starts the burst dispatcher as a background
activity, sleeps for exactly duration + 1 seconds (and for no other
amount), and after waking its last action prints the final report as
indented JSON whose fields are TotalRequests, TotalSuccess and TotalFail. -/
theorem executeRequests_controller_behavior (url key : String) (rqs duration : Int)
    (verbose : Bool) (finalReport : Report) :
    RunAction.startDispatcher url key rqs verbose ∈
      executeRequests url key rqs duration verbose finalReport ∧
    RunAction.sleepSeconds (duration + 1) ∈
      executeRequests url key rqs duration verbose finalReport ∧
    (∀ n : Int, RunAction.sleepSeconds n ∈
      executeRequests url key rqs duration verbose finalReport → n = duration + 1) ∧
    (executeRequests url key rqs duration verbose finalReport).getLast? =
      some (RunAction.printLine (prettyReport finalReport)) ∧
    prettyReport finalReport =
      "\x7b\n  \"TotalRequests\": " ++ toString finalReport.TotalRequests ++
      ",\n  \"TotalSuccess\": " ++ toString finalReport.TotalSuccess ++
      ",\n  \"TotalFail\": " ++ toString finalReport.TotalFail ++ "\n\x7d" := by
  refine ⟨?_, ?_, ?_, rfl, rfl⟩
  · simp [executeRequests]
  · simp [executeRequests]
  · intro n hn
    simpa [executeRequests] using hn

theorem executeRequests_controller_behavior_witness :
    RunAction.sleepSeconds 4 ∈
      executeRequests "http://t" "k" 2 3 false
        { TotalRequests := 3, TotalSuccess := 2, TotalFail := 1 } :=
  (executeRequests_controller_behavior "http://t" "k" 2 3 false
    { TotalRequests := 3, TotalSuccess := 2, TotalFail := 1 }).2.1

/-- C10: every message sent on the success channel has a non-nil response
and a nil error, and every message sent on the error channel with a nil
error has a non-nil response — for every combination of response and error
the worker may observe; hence the collectors' reads of the status code
never dereference a nil response. -/
theorem channel_messages_response_invariant (count : Int) (resp : Option HttpResponse)
    (err : Option String) (report : Report) :
    (∀ msg ∈ (doRequest count resp err report).resultMsgs,
        msg.Response.isSome = true ∧ msg.Err = none) ∧
    (∀ msg ∈ (doRequest count resp err report).errorMsgs,
        msg.Err = none → msg.Response.isSome = true) := by
  cases resp with
  | none =>
      cases err with
      | none => simp [doRequest]
      | some e => simp [doRequest]
  | some r =>
      cases err with
      | none => by_cases hf : failStatus r <;> simp [doRequest, hf]
      | some e => by_cases hf : failStatus r <;> simp [doRequest, hf]

theorem channel_messages_response_invariant_witness :
    ({ Index := 1, Response := some { StatusCode := 200, Body := "" },
       Err := none } : Request).Response.isSome = true ∧
    ({ Index := 1, Response := some { StatusCode := 200, Body := "" },
       Err := none } : Request).Err = none :=
  (channel_messages_response_invariant 1 (some { StatusCode := 200, Body := "" }) none
      { TotalRequests := 0, TotalSuccess := 0, TotalFail := 0 }).1
    { Index := 1, Response := some { StatusCode := 200, Body := "" }, Err := none }
    (by decide)

/-- C5 (code defect): the spec requires non-positive requests-per-tick or
duration to be rejected as a fatal configuration error before the run
starts, but `main` performs no validation at all: with rqs = -1 and
duration = 0 it still starts the run instead of exiting non-zero. -/
theorem main_starts_run_without_validation :
    mainFlow "http://target" "key" (-1) 0 false =
      MainAction.startRun "http://target" "key" (-1) 0 false := rfl

/-- C2 counterexample: an attempt observing a 200 response together with a
non-nil error (the defensive double-classification path, spec section 4.1)
increments BOTH TotalSuccess and TotalFail, refuting exactly-one. -/
theorem doRequest_increments_both_counters_cex :
    (doRequest 1 (some { StatusCode := 200, Body := "" }) (some "redirect error")
        { TotalRequests := 0, TotalSuccess := 0, TotalFail := 0 }).report.TotalSuccess = 1 ∧
    (doRequest 1 (some { StatusCode := 200, Body := "" }) (some "redirect error")
        { TotalRequests := 0, TotalSuccess := 0, TotalFail := 0 }).report.TotalFail = 1 :=
  ⟨rfl, rfl⟩

/-- C2 (amended): for every worker attempt in which exactly one of
response and error is observed — a response without an error, or an error
without a response — exactly one of TotalSuccess and TotalFail is
incremented: never both and never neither. -/
theorem doRequest_exactly_one_counter (count : Int) (resp : Option HttpResponse)
    (err : Option String) (report : Report) (h : exclusiveObservation resp err) :
    ((doRequest count resp err report).report.TotalSuccess = report.TotalSuccess + 1 ∧
     (doRequest count resp err report).report.TotalFail = report.TotalFail) ∨
    ((doRequest count resp err report).report.TotalSuccess = report.TotalSuccess ∧
     (doRequest count resp err report).report.TotalFail = report.TotalFail + 1) := by
  rcases h with ⟨hresp, herr⟩ | ⟨hresp, herr⟩
  · obtain ⟨r, rfl⟩ := Option.isSome_iff_exists.mp hresp
    subst herr
    by_cases hf : failStatus r
    · right
      simp [doRequest, hf]
    · left
      simp [doRequest, hf]
  · subst hresp
    obtain ⟨e, rfl⟩ := Option.isSome_iff_exists.mp herr
    right
    simp [doRequest]

theorem doRequest_exactly_one_counter_witness :
    ((doRequest 2 (some { StatusCode := 204, Body := "" }) none
        { TotalRequests := 5, TotalSuccess := 3, TotalFail := 2 }).report.TotalSuccess = 3 + 1 ∧
     (doRequest 2 (some { StatusCode := 204, Body := "" }) none
        { TotalRequests := 5, TotalSuccess := 3, TotalFail := 2 }).report.TotalFail = 2) ∨
    ((doRequest 2 (some { StatusCode := 204, Body := "" }) none
        { TotalRequests := 5, TotalSuccess := 3, TotalFail := 2 }).report.TotalSuccess = 3 ∧
     (doRequest 2 (some { StatusCode := 204, Body := "" }) none
        { TotalRequests := 5, TotalSuccess := 3, TotalFail := 2 }).report.TotalFail = 2 + 1) :=
  doRequest_exactly_one_counter 2 (some { StatusCode := 204, Body := "" }) none
    { TotalRequests := 5, TotalSuccess := 3, TotalFail := 2 } (Or.inl ⟨rfl, rfl⟩)

/-- C3 counterexample: starting from a report satisfying the sum invariant,
an attempt observing a 500 response together with a non-nil error yields
TotalSuccess + TotalFail = 2 but TotalRequests = 1: the invariant is not
preserved for every combination of response and error. -/
theorem report_sum_invariant_cex :
    ¬ ((doRequest 1 (some { StatusCode := 500, Body := "" }) (some "boom")
          { TotalRequests := 0, TotalSuccess := 0, TotalFail := 0 }).report.TotalSuccess +
       (doRequest 1 (some { StatusCode := 500, Body := "" }) (some "boom")
          { TotalRequests := 0, TotalSuccess := 0, TotalFail := 0 }).report.TotalFail =
       (doRequest 1 (some { StatusCode := 500, Body := "" }) (some "boom")
          { TotalRequests := 0, TotalSuccess := 0, TotalFail := 0 }).report.TotalRequests) := by
  decide

theorem doRequest_sum_step (count : Int) (resp : Option HttpResponse)
    (err : Option String) (report : Report) (h : exclusiveObservation resp err)
    (hsum : report.TotalSuccess + report.TotalFail = report.TotalRequests) :
    (doRequest count resp err report).report.TotalSuccess +
      (doRequest count resp err report).report.TotalFail =
      (doRequest count resp err report).report.TotalRequests := by
  rcases h with ⟨hresp, herr⟩ | ⟨hresp, herr⟩
  · obtain ⟨r, rfl⟩ := Option.isSome_iff_exists.mp hresp
    subst herr
    by_cases hf : failStatus r <;> simp [doRequest, hf] <;> omega
  · subst hresp
    obtain ⟨e, rfl⟩ := Option.isSome_iff_exists.mp herr
    simp [doRequest]
    omega

/-- C3 (amended): the invariant TotalSuccess + TotalFail = TotalRequests
is preserved by every worker attempt that observes exactly one of response
and error, and hence holds for the report produced by any burst of such
attempts from a report satisfying it (in particular the zero-initialized
report of a run). -/
theorem runBurst_preserves_sum (obs : List Observation) (idx : Int) (report : Report)
    (hobs : ∀ o ∈ obs, exclusiveObservation o.resp o.err)
    (hsum : report.TotalSuccess + report.TotalFail = report.TotalRequests) :
    (runBurst obs idx report).report.TotalSuccess +
      (runBurst obs idx report).report.TotalFail =
      (runBurst obs idx report).report.TotalRequests := by
  induction obs generalizing idx report with
  | nil => simpa [runBurst] using hsum
  | cons o rest ih =>
      simp only [runBurst]
      exact ih (idx + 1) (doRequest idx o.resp o.err report).report
        (fun x hx => hobs x (List.mem_cons_of_mem o hx))
        (doRequest_sum_step idx o.resp o.err report
          (hobs o (List.mem_cons_self o rest)) hsum)

theorem runBurst_preserves_sum_witness :
    (runBurst [{ resp := some { StatusCode := 200, Body := "" }, err := none },
               { resp := some { StatusCode := 500, Body := "" }, err := none },
               { resp := none, err := some "timeout" }] 1
        { TotalRequests := 0, TotalSuccess := 0, TotalFail := 0 }).report.TotalSuccess +
      (runBurst [{ resp := some { StatusCode := 200, Body := "" }, err := none },
                 { resp := some { StatusCode := 500, Body := "" }, err := none },
                 { resp := none, err := some "timeout" }] 1
        { TotalRequests := 0, TotalSuccess := 0, TotalFail := 0 }).report.TotalFail =
      (runBurst [{ resp := some { StatusCode := 200, Body := "" }, err := none },
                 { resp := some { StatusCode := 500, Body := "" }, err := none },
                 { resp := none, err := some "timeout" }] 1
        { TotalRequests := 0, TotalSuccess := 0, TotalFail := 0 }).report.TotalRequests :=
  runBurst_preserves_sum
    [{ resp := some { StatusCode := 200, Body := "" }, err := none },
     { resp := some { StatusCode := 500, Body := "" }, err := none },
     { resp := none, err := some "timeout" }] 1
    { TotalRequests := 0, TotalSuccess := 0, TotalFail := 0 }
    (by
      intro o ho
      simp only [List.mem_cons, List.not_mem_nil, or_false] at ho
      rcases ho with rfl | rfl | rfl
      · exact Or.inl ⟨rfl, rfl⟩
      · exact Or.inl ⟨rfl, rfl⟩
      · exact Or.inr ⟨rfl, rfl⟩) rfl

/-- C7 counterexample: with a 404 response observed together with a
non-nil error, the outcome published on the error channel carries BOTH a
response and an error, refuting exactly-one-primary-signal. -/
theorem published_outcome_both_signals_cex :
    ({ Index := 3, Response := some { StatusCode := 404, Body := "" },
       Err := some "redirect loop" } : Request) ∈
      (doRequest 3 (some { StatusCode := 404, Body := "" }) (some "redirect loop")
        { TotalRequests := 0, TotalSuccess := 0, TotalFail := 0 }).errorMsgs ∧
    (some { StatusCode := 404, Body := "" } : Option HttpResponse).isSome = true ∧
    (some "redirect loop" : Option String).isSome = true := by
  decide

/-- C7 (amended): provided the worker observes at most one of response
and error, every published RequestOutcome has exactly one of response
present / error present; in particular the outcome for a response with a
non-accepted status code has the response set and not the error. -/
theorem published_outcome_exclusive_signal (count : Int) (resp : Option HttpResponse)
    (err : Option String) (report : Report)
    (h : ¬ (resp.isSome = true ∧ err.isSome = true)) :
    (∀ msg ∈ (doRequest count resp err report).resultMsgs ++
        (doRequest count resp err report).errorMsgs,
      (msg.Response.isSome = true ∧ msg.Err = none) ∨
      (msg.Response = none ∧ msg.Err.isSome = true)) ∧
    (∀ r : HttpResponse, resp = some r → failStatus r = true →
      (doRequest count resp err report).errorMsgs =
        [{ Index := count, Response := some r, Err := none }]) := by
  cases resp with
  | none =>
      constructor
      · cases err with
        | none => simp [doRequest]
        | some e => simp [doRequest]
      · intro r hr
        cases hr
  | some r0 =>
      have herr : err = none := by
        cases err with
        | none => rfl
        | some e => exact absurd ⟨rfl, rfl⟩ h
      subst herr
      constructor
      · by_cases hf : failStatus r0 <;> simp [doRequest, hf]
      · intro r hr hf
        cases hr
        simp [doRequest, hf]

theorem published_outcome_exclusive_signal_witness :
    (doRequest 4 (some { StatusCode := 500, Body := "" }) none
        { TotalRequests := 0, TotalSuccess := 0, TotalFail := 0 }).errorMsgs =
      [{ Index := 4, Response := some { StatusCode := 500, Body := "" }, Err := none }] :=
  (published_outcome_exclusive_signal 4 (some { StatusCode := 500, Body := "" }) none
      { TotalRequests := 0, TotalSuccess := 0, TotalFail := 0 }
      (by simp)).2 { StatusCode := 500, Body := "" } rfl (by decide)
